import Mathlib

/-!
Verification of the dynsec stall engine and hook adapters
(seanpm2001/kernel-event-collector-module, src/dynsec).

The definitions below are a shallow embedding of the C sources:
  * `do_stall_interruptible`, `dynsec_wait_event_timeout`, `handle_stall_ioc`
    from src/dynsec/src/hooks.h (the stall-engine part of that file);
  * the hook adapters `dynsec_bprm_set_creds` (both the hooks.c and the
    part_000 variant), `dynsec_inode_setattr`, `dynsec_file_open` and
    `dynsec_mmap_file` flag logic from src/dynsec/src/hooks.c and
    src/unnamed/part_000.

Machine integers are modelled as `Nat`/`Int`; timeouts are kept in
milliseconds (the C source converts to jiffies with `msecs_to_jiffies`,
a monotone unit conversion that we elide).  Out-parameters written
through pointers (`int *response`) are modelled as result fields.

The two .c files call a four-argument `dynsec_wait_event_timeout`
whose third argument is the wait timeout in milliseconds (always the
literal 1000); the definition under src/ (in hooks.h) is the
three-argument variant, which reads the timeout from
`get_wait_timeout()` instead.  The embedding exposes the timeout as
the `waitTimeoutMs` parameter, and the adapter embeddings instantiate
it with 1000 as their call sites do.
-/

/-! ## Constants

Linux errno values (from the kernel uapi headers). -/

def EPERM : Int := 1
def ECHILD : Int := 10
def EINVAL : Int := 22

/-- Modelled from the spec: the userspace response codes come from the
`dynsec.h` uapi header, which is not under src/. The spec fixes
`ALLOW = 0` and names `DENY` (EPERM) and `CONTINUE` as the other two
codes; only their distinctness is used by the code under src/. -/
def DYNSEC_RESPONSE_ALLOW : Int := 0

/-- Modelled from the spec: the DENY response code (see
`DYNSEC_RESPONSE_ALLOW`). -/
def DYNSEC_RESPONSE_EPERM : Int := 1

/-- Modelled from the spec: the CONTINUE response code (see
`DYNSEC_RESPONSE_ALLOW`). -/
def DYNSEC_RESPONSE_CONTINUE : Int := 2

/-- `#define MAX_CONTINUE_RESPONSES 256` (src/dynsec/src/hooks.h line 91). -/
def MAX_CONTINUE_RESPONSES : Nat := 256

/-! ## The stall engine: `do_stall_interruptible`

The engine repeatedly waits on the stall entry's wait queue.  One
iteration of the `retry:` loop is driven by the environment: whether
the stall table / stall mode / bypass mode checks pass at the top of
the loop, how the wait ends (`wait_event_interruptible_timeout`
returning negative / zero / positive), and — when the waiter is woken —
the values of `entry->response` and `entry->stall_timeout` copied under
the entry lock, plus the value `get_continue_timeout()` would return.
-/

/-- Outcome of one `wait_event_interruptible_timeout` call:
negative return (interrupted), zero (timed out), or positive
(condition became true: the entry was released with the given
`entry->response` and `entry->stall_timeout`). -/
inductive WaitOutcome where
  | interrupted : WaitOutcome
  | timedout : WaitOutcome
  | released : Int → Nat → WaitOutcome
deriving DecidableEq

/-- The environment one iteration of the retry loop observes. -/
structure StallRound where
  tblEnabled : Bool
  modeEnabled : Bool
  bypassEnabled : Bool
  outcome : WaitOutcome
  continueTimeoutMs : Nat
deriving DecidableEq

/-- Observable result of `do_stall_interruptible`:
`ret` is the C return value; `setsEperm` records whether the final
`if (local_response == DYNSEC_RESPONSE_EPERM) *response = -EPERM;`
fired; `removed` records whether `stall_tbl_remove_entry` was called;
`rounds` counts the `wait_event_interruptible_timeout` calls performed;
`totalWait` sums the timeout values armed for those waits (an upper
bound on the real blocking time). -/
structure StallResult where
  ret : Int
  setsEperm : Bool
  removed : Bool
  rounds : Nat
  totalWait : Nat
deriving DecidableEq

/-- The retry loop of `do_stall_interruptible` (src/dynsec/src/hooks.h
lines 109-186).  `remaining` encodes `MAX_CONTINUE_RESPONSES -
continue_count`, so the C guard `continue_count + 1 <
MAX_CONTINUE_RESPONSES` (retry) corresponds to `remaining ≥ 2`, and the
initial call passes `remaining = MAX_CONTINUE_RESPONSES`
(`continue_count = 0`).  `idx` indexes the current round, `timeout` is
the currently armed timeout and `waited` accumulates armed timeouts. -/
def stallLoopAux (env : Nat → StallRound) (defaultResponse : Int)
    (remaining idx timeout waited : Nat) : StallResult :=
  let r := env idx
  -- the three early-exit checks at the `retry:` label; note that they
  -- return without reaching `stall_tbl_remove_entry`
  if ¬ r.tblEnabled then
    ⟨-ECHILD, false, false, idx, waited⟩
  else if ¬ r.modeEnabled then
    ⟨-ECHILD, false, false, idx, waited⟩
  else if r.bypassEnabled then
    ⟨-ECHILD, false, false, idx, waited⟩
  else
    -- local_timeout = 0; local_response = default_reponse; then wait
    match r.outcome with
    | .interrupted =>
        -- wait_ret < 0: fall through with local_response = default
        ⟨0, decide (defaultResponse = DYNSEC_RESPONSE_EPERM), true,
          idx + 1, waited + timeout⟩
    | .timedout =>
        -- wait_ret == 0: fall through with local_response = default
        ⟨0, decide (defaultResponse = DYNSEC_RESPONSE_EPERM), true,
          idx + 1, waited + timeout⟩
    | .released resp customTimeout =>
        -- copy entry->response / entry->stall_timeout under the lock,
        -- re-arm entry->mode = DYNSEC_STALL_MODE_STALL
        if resp = DYNSEC_RESPONSE_CONTINUE then
          let timeout' :=
            if customTimeout ≠ 0 then customTimeout else r.continueTimeoutMs
          -- continue_count += 1; if (continue_count < MAX) goto retry:
          -- with remaining = MAX - continue_count the guard
          -- continue_count + 1 < MAX reads 2 ≤ remaining
          if 2 ≤ remaining then
            stallLoopAux env defaultResponse (remaining - 1) (idx + 1) timeout'
              (waited + timeout)
          else
            -- cap reached: ret = -ECHILD, fall through
            ⟨-ECHILD, decide (resp = DYNSEC_RESPONSE_EPERM), true,
              idx + 1, waited + timeout⟩
        else
          ⟨0, decide (resp = DYNSEC_RESPONSE_EPERM), true,
            idx + 1, waited + timeout⟩
termination_by remaining
decreasing_by omega

/-- `do_stall_interruptible` (src/dynsec/src/hooks.h lines 95-187).
`waitTimeoutMs` is the value of `get_wait_timeout()` read before the
loop; `defaultResponse` is `entry->response` on entry (the configured
default installed at insert time). -/
def do_stall_interruptible (env : Nat → StallRound) (waitTimeoutMs : Nat)
    (defaultResponse : Int) : StallResult :=
  stallLoopAux env defaultResponse MAX_CONTINUE_RESPONSES 0 waitTimeoutMs 0

/-- The final `*response` value after `do_stall_interruptible`, given that
the caller (`dynsec_wait_event_timeout`) initialised `*response = 0`. -/
def do_stall_response (s : StallResult) : Int :=
  if s.setsEperm then -EPERM else 0

set_option maxRecDepth 100000
set_option maxHeartbeats 2000000
set_option linter.unusedVariables false
set_option linter.unnecessarySeqFocus false
set_option linter.unreachableTactic false
set_option linter.unusedTactic false

/-- Modelled from the spec: `stall_tbl_insert` (stall_tbl.c is not under
src/) initialises `entry->response` to the configured default — DENY
(EPERM) if `deny_on_timeout` is enabled, otherwise ALLOW. -/
def defaultResponseOf (denyOnTimeout : Bool) : Int :=
  if denyOnTimeout then DYNSEC_RESPONSE_EPERM else DYNSEC_RESPONSE_ALLOW

/-- The continuation timeout a CONTINUE response observed at round `i`
would arm for the next round: the custom `entry->stall_timeout` if
nonzero, else `get_continue_timeout()`. -/
def effContTimeout (env : Nat → StallRound) (i : Nat) : Nat :=
  match (env i).outcome with
  | .released _ c => if c ≠ 0 then c else (env i).continueTimeoutMs
  | _ => 0

/-- An environment whose every round passes the enabled checks and ends
with outcome `o`; `get_continue_timeout()` yields `cts`. -/
def oneShotEnv (o : WaitOutcome) (cts : Nat) : Nat → StallRound :=
  fun _ => ⟨true, true, false, o, cts⟩

/-- An environment in which every round passes the enabled checks and
userspace answers CONTINUE, with custom continuation timeout `ct i`
(0 = none) and `get_continue_timeout() = cts i` at round `i`. -/
def allContinueEnv (ct cts : Nat → Nat) : Nat → StallRound :=
  fun i => ⟨true, true, false, .released DYNSEC_RESPONSE_CONTINUE (ct i), cts i⟩

/-- Round 0 releases with CONTINUE; before the second wait the admin has
turned global stall mode off (e.g. via `handle_stall_ioc` with
`DYNSEC_STALL_MODE_SET`), so the round-1 `stall_mode_enabled()` check at
the `retry:` label fails. -/
def modeOffEnv : Nat → StallRound :=
  fun i =>
    if i = 0 then ⟨true, true, false, .released DYNSEC_RESPONSE_CONTINUE 0, 1000⟩
    else ⟨true, false, false, .timedout, 1000⟩

/-! ## Report flags and events

The numeric bit values of `DYNSEC_REPORT_*` live in the uapi header
`dynsec.h`, which is not under src/.  The spec describes `report_flags`
as a bitset over {AUDIT, STALL, SELF, IGNORE, LOW_PRIORITY}; we model
the bitset as a record of named booleans, and `|=` / `&= ~` as field
updates. -/

/-- Modelled from the spec: the report-flags bitset (AUDIT, STALL, SELF,
IGNORE) of an event. -/
structure ReportFlags where
  audit : Bool
  stall : Bool
  self : Bool
  ignore : Bool
deriving DecidableEq

/-- The part of `struct dynsec_event` the stall-request code inspects. -/
structure DynsecEvent where
  report_flags : ReportFlags
deriving DecidableEq

/-- Result of `stall_tbl_insert`: an `IS_ERR` pointer carrying errno `e`,
a NULL pointer, or a valid stall entry. -/
inductive InsertResult where
  | errp : Int → InsertResult
  | nullp : InsertResult
  | entry : InsertResult
deriving DecidableEq

/-- Observable result of `dynsec_wait_event_timeout`: the return value,
whether `free_dynsec_event` was called on the event, whether `*response`
was written at all, and its final value. -/
structure WaitEventResult where
  ret : Int
  freed : Bool
  responseWritten : Bool
  responseOut : Int
deriving DecidableEq

/-- `dynsec_wait_event_timeout` (src/dynsec/src/hooks.h lines 189-226).
`hasResponsePtr` models the `response` pointer being non-NULL; `event`
models the `dynsec_event` pointer; `ins` is the result of
`stall_tbl_insert`; `env`, `waitTimeoutMs` and `defaultResponse` drive
the inner `do_stall_interruptible` (whose return value the source
discards). -/
def dynsec_wait_event_timeout (hasResponsePtr : Bool) (event : Option DynsecEvent)
    (tblEnabled ignoreModeEnabled : Bool) (ins : InsertResult)
    (env : Nat → StallRound) (waitTimeoutMs : Nat) (defaultResponse : Int) :
    WaitEventResult :=
  if ¬ hasResponsePtr then
    ⟨-EINVAL, false, false, 0⟩
  else
    -- *response = 0
    match event with
    | none => ⟨-EINVAL, true, true, 0⟩
    | some ev =>
      if ¬ tblEnabled then ⟨-EINVAL, true, true, 0⟩
      else if ev.report_flags.ignore ∧ ignoreModeEnabled then
        ⟨-ECHILD, true, true, 0⟩
      else
        match ins with
        | .errp e => ⟨e, true, true, 0⟩
        | .nullp => ⟨0, false, true, 0⟩
        | .entry =>
            let s := do_stall_interruptible env waitTimeoutMs defaultResponse
            ⟨0, false, true, do_stall_response s⟩

/-! ## Configuration and `handle_stall_ioc` -/

/-- Modelled from the spec: `DEFAULT_DISABLED` from the missing config.h;
the code only compares against it. -/
def DEFAULT_DISABLED : Nat := 0

/-- Modelled from the spec: `DEFAULT_ENABLED` from the missing config.h. -/
def DEFAULT_ENABLED : Nat := 1

/-- Modelled from the spec: the `DYNSEC_STALL_MODE_SET` control-flags bit
from the missing uapi header; only distinctness of the four bits is
used. -/
def DYNSEC_STALL_MODE_SET : Nat := 1

/-- Modelled from the spec: the `DYNSEC_STALL_DEFAULT_TIMEOUT` bit. -/
def DYNSEC_STALL_DEFAULT_TIMEOUT : Nat := 2

/-- Modelled from the spec: the `DYNSEC_STALL_CONTINUE_TIMEOUT` bit. -/
def DYNSEC_STALL_CONTINUE_TIMEOUT : Nat := 4

/-- Modelled from the spec: the `DYNSEC_STALL_DEFAULT_DENY` bit. -/
def DYNSEC_STALL_DEFAULT_DENY : Nat := 8

/-- The fields of `global_config` the stall-request code mutates. -/
structure GlobalConfig where
  stall_mode : Nat
  stall_timeout : Nat
  stall_timeout_continue : Nat
  stall_timeout_deny : Nat
deriving DecidableEq

/-- `stall_mode_enabled()` (config.h is not under src/; modelled from the
code's use: enabled iff not `DEFAULT_DISABLED`). -/
def stall_mode_enabled (cfg : GlobalConfig) : Bool :=
  cfg.stall_mode ≠ DEFAULT_DISABLED

/-- `deny_on_timeout_enabled()` (same modelling as `stall_mode_enabled`). -/
def deny_on_timeout_enabled (cfg : GlobalConfig) : Bool :=
  cfg.stall_timeout_deny ≠ DEFAULT_DISABLED

/-- `struct dynsec_stall_ioc_hdr`. -/
structure StallIocHdr where
  flags : Nat
  stall_mode : Nat
  stall_timeout : Nat
  stall_timeout_continue : Nat
  stall_timeout_deny : Nat
deriving DecidableEq

/-- The `DYNSEC_STALL_MODE_SET` block of `handle_stall_ioc`
(src/dynsec/src/hooks.h lines 252-268).  The task/inode cache flushes
performed on a transition have no effect on the configuration record
and are not modelled. -/
def ioc_update_mode (hdr : StallIocHdr) (cfg : GlobalConfig) : GlobalConfig :=
  if stall_mode_enabled cfg then
    -- Disable stalling
    if hdr.stall_mode = DEFAULT_DISABLED then
      { cfg with stall_mode := DEFAULT_DISABLED }
    else cfg
  else
    -- Enable stalling
    if hdr.stall_mode ≠ DEFAULT_DISABLED then
      { cfg with stall_mode := DEFAULT_ENABLED }
    else cfg

/-- The `DYNSEC_STALL_DEFAULT_TIMEOUT` block of `handle_stall_ioc`
(src/dynsec/src/hooks.h lines 269-280). -/
def ioc_update_default_timeout (MINW MAXW : Nat) (hdr : StallIocHdr)
    (cfg : GlobalConfig) : GlobalConfig :=
  let timeout_ms := MAXW
  let timeout_ms := if hdr.stall_timeout < MAXW then hdr.stall_timeout
    else timeout_ms
  let timeout_ms := if timeout_ms < MINW then MINW else timeout_ms
  { cfg with stall_timeout := timeout_ms }

/-- The `DYNSEC_STALL_CONTINUE_TIMEOUT` block of `handle_stall_ioc`
(src/dynsec/src/hooks.h lines 281-296): the continuation timeout is
kept at least as long as the (possibly just-updated) regular timeout,
then capped at `MAX_EXTENDED_TIMEOUT_MS`. -/
def ioc_update_continue_timeout (MAXEXT : Nat) (hdr : StallIocHdr)
    (cfg : GlobalConfig) : GlobalConfig :=
  let timeout_ms :=
    if hdr.stall_timeout_continue > cfg.stall_timeout then
      hdr.stall_timeout_continue
    else cfg.stall_timeout
  let timeout_ms := if timeout_ms > MAXEXT then MAXEXT else timeout_ms
  { cfg with stall_timeout_continue := timeout_ms }

/-- The `DYNSEC_STALL_DEFAULT_DENY` block of `handle_stall_ioc`
(src/dynsec/src/hooks.h lines 298-310). -/
def ioc_update_default_deny (hdr : StallIocHdr) (cfg : GlobalConfig) :
    GlobalConfig :=
  if deny_on_timeout_enabled cfg then
    -- Turn off Default Deny
    if hdr.stall_timeout_deny = DEFAULT_DISABLED then
      { cfg with stall_timeout_deny := DEFAULT_DISABLED }
    else cfg
  else
    -- Turn on Default Deny
    if hdr.stall_timeout_deny ≠ DEFAULT_DISABLED then
      { cfg with stall_timeout_deny := DEFAULT_ENABLED }
    else cfg

/-- `handle_stall_ioc` (src/dynsec/src/hooks.h lines 229-314).
`MINW`, `MAXW`, `MAXEXT` stand for the macros `MIN_WAIT_TIMEOUT_MS`,
`MAX_WAIT_TIMEOUT_MS`, `MAX_EXTENDED_TIMEOUT_MS` of the missing
config.h (the spec constrains them by `MIN_WAIT ≤ MAX_WAIT ≤
MAX_EXTENDED`); `capableSysAdmin` models `capable(CAP_SYS_ADMIN)` and
`hasHdr` the NULL check.  Returns the errno and the configuration
after the call. -/
def handle_stall_ioc (MINW MAXW MAXEXT : Nat) (capableSysAdmin hasHdr : Bool)
    (hdr : StallIocHdr) (cfg : GlobalConfig) : Int × GlobalConfig :=
  if ¬ hasHdr then (-EINVAL, cfg)
  else
    let flags := hdr.flags &&& (DYNSEC_STALL_MODE_SET
      ||| DYNSEC_STALL_DEFAULT_TIMEOUT
      ||| DYNSEC_STALL_CONTINUE_TIMEOUT
      ||| DYNSEC_STALL_DEFAULT_DENY)
    if flags = 0 then (-EINVAL, cfg)
    else if ¬ capableSysAdmin then (-EPERM, cfg)
    else
      let cfg := if flags &&& DYNSEC_STALL_MODE_SET ≠ 0 then
        ioc_update_mode hdr cfg else cfg
      let cfg := if flags &&& DYNSEC_STALL_DEFAULT_TIMEOUT ≠ 0 then
        ioc_update_default_timeout MINW MAXW hdr cfg else cfg
      let cfg := if flags &&& DYNSEC_STALL_CONTINUE_TIMEOUT ≠ 0 then
        ioc_update_continue_timeout MAXEXT hdr cfg else cfg
      let cfg := if flags &&& DYNSEC_STALL_DEFAULT_DENY ≠ 0 then
        ioc_update_default_deny hdr cfg else cfg
      (0, cfg)

/-! ## Hook adapters

`Part000` embeds the adapters of src/unnamed/part_000, `HooksC` the
older variants in src/dynsec/src/hooks.c.  An adapter's observable
behaviour: the value returned to the LSM layer, whether the adapter
itself freed the event, and whether the event went to the stall engine
or to the non-stall queue. -/

/-- Observable result of running a hook adapter. -/
structure AdapterResult where
  ret : Int
  eventBuilt : Bool
  freedByAdapter : Bool
  enqueued : Bool
  stalled : Bool
deriving DecidableEq

namespace Part000

/-- `dynsec_bprm_set_creds` (src/unnamed/part_000 lines 16-71).
`hookEnabled` models `lsm_hooks_enabled & DYNSEC_HOOK_TYPE_EXEC`,
`bprmOk` the `bprm && bprm->file` check, `conn` models
`task_in_connected_tgid(current)`, `allocOk`/`fillOk` the factory
calls.  The non-stall branch discards `enqueue_nonstall_event`'s return
value (`(void)enqueue_nonstall_event(stall_tbl, event)`), so
`enqueueSize` is unused on that path and the adapter never frees the
event there. -/
def dynsec_bprm_set_creds (hookEnabled bprmOk tblEnabled conn allocOk fillOk
    ignoreMode : Bool) (ins : InsertResult) (env : Nat → StallRound)
    (defaultResponse : Int) (enqueueSize : Nat) : AdapterResult :=
  if ¬ hookEnabled then ⟨0, false, false, false, false⟩
  else if ¬ bprmOk then ⟨0, false, false, false, false⟩
  else if ¬ tblEnabled then ⟨0, false, false, false, false⟩
  else
    let rf : ReportFlags := ⟨true, false, false, false⟩
    let rf := if conn then { rf with self := true } else { rf with stall := true }
    if ¬ allocOk then ⟨0, false, false, false, false⟩
    else if ¬ fillOk then ⟨0, true, true, false, false⟩
    else if rf.stall then
      let w := dynsec_wait_event_timeout true (some ⟨rf⟩) tblEnabled ignoreMode
        ins env 1000 defaultResponse
      ⟨if w.ret = 0 then w.responseOut else 0, true, false, false, true⟩
    else
      ⟨0, true, false, true, false⟩

end Part000

namespace HooksC

/-- `dynsec_bprm_set_creds` (src/dynsec/src/hooks.c lines 14-70): the
older variant, with no `lsm_hooks_enabled` gate, whose non-stall branch
checks `enqueue_nonstall_event`'s return and frees the event when it
returns 0 (queue full). -/
def dynsec_bprm_set_creds (bprmOk tblEnabled conn allocOk fillOk
    ignoreMode : Bool) (ins : InsertResult) (env : Nat → StallRound)
    (defaultResponse : Int) (enqueueSize : Nat) : AdapterResult :=
  if ¬ bprmOk then ⟨0, false, false, false, false⟩
  else if ¬ tblEnabled then ⟨0, false, false, false, false⟩
  else
    let rf : ReportFlags := ⟨true, false, false, false⟩
    let rf := if conn then { rf with self := true } else { rf with stall := true }
    if ¬ allocOk then ⟨0, false, false, false, false⟩
    else if fillOk then
      if rf.stall then
        let w := dynsec_wait_event_timeout true (some ⟨rf⟩) tblEnabled ignoreMode
          ins env 1000 defaultResponse
        ⟨if w.ret = 0 then w.responseOut else 0, true, false, false, true⟩
      else
        if enqueueSize = 0 then ⟨0, true, true, false, false⟩
        else ⟨0, true, false, true, false⟩
    else ⟨0, true, true, false, false⟩

end HooksC

/-! ## The setattr adapter and its mask reduction -/

/-- `ATTR_MODE` (linux/fs.h). -/
def ATTR_MODE : Nat := 1

/-- `ATTR_UID` (linux/fs.h). -/
def ATTR_UID : Nat := 2

/-- `ATTR_GID` (linux/fs.h). -/
def ATTR_GID : Nat := 4

/-- `ATTR_SIZE` (linux/fs.h). -/
def ATTR_SIZE : Nat := 8

/-- The value of `~b` on a C `unsigned int`, i.e. `0xFFFFFFFF XOR b`. -/
def cNot32 (b : Nat) : Nat := 4294967295 ^^^ b

/-- The fields of `struct iattr` the setattr hook reads. -/
structure Iattr where
  ia_valid : Nat
  ia_mode : Nat
  ia_uid : Nat
  ia_gid : Nat
  ia_size : Nat
deriving DecidableEq

/-- The fields of the target inode the setattr hook reads. -/
structure InodeAttrs where
  i_mode : Nat
  i_uid : Nat
  i_gid : Nat
  i_size : Nat
deriving DecidableEq

/-- The `attr_mask` computation of `dynsec_inode_setattr`
(src/unnamed/part_000 lines 299-343): mask `ia_valid` down to
mode/uid/gid/size, then drop each redundant field.  `uid_eq`/`gid_eq`
are modelled as equality of numeric ids. -/
def setattr_reduced_mask (inode : InodeAttrs) (attr : Iattr) : Nat :=
  let attr_mask := attr.ia_valid &&& (ATTR_MODE ||| ATTR_UID ||| ATTR_GID ||| ATTR_SIZE)
  let attr_mask :=
    if attr_mask &&& ATTR_MODE ≠ 0 ∧ attr.ia_mode = inode.i_mode then
      attr_mask &&& cNot32 ATTR_MODE
    else attr_mask
  let attr_mask :=
    if attr_mask &&& ATTR_UID ≠ 0 ∧ attr.ia_uid = inode.i_uid then
      attr_mask &&& cNot32 ATTR_UID
    else attr_mask
  let attr_mask :=
    if attr_mask &&& ATTR_GID ≠ 0 ∧ attr.ia_gid = inode.i_gid then
      attr_mask &&& cNot32 ATTR_GID
    else attr_mask
  let attr_mask :=
    if attr_mask &&& ATTR_SIZE ≠ 0 then
      -- "Don't care about fallocate": any nonzero requested size is dropped;
      -- "Don't care if the file is already empty/truncated"
      if attr.ia_size ≠ 0 then attr_mask &&& cNot32 ATTR_SIZE
      else if attr.ia_size = inode.i_size then attr_mask &&& cNot32 ATTR_SIZE
      else attr_mask
    else attr_mask
  attr_mask

/-- `setattr_reduced_mask` with the three value comparisons and the two
size tests abstracted into booleans (`em`/`eu`/`eg`: requested
mode/uid/gid equals the inode's; `szZero`: requested size is 0; `szEq`:
requested size equals the inode's).  `setattr_reduced_mask_eq` proves
it equal to `setattr_reduced_mask`; stating it this way makes the mask
computation a function of a mask below 16 and five booleans, which the
mask lemmas decide exhaustively. -/
def reduceMaskB (m : Nat) (em eu eg szZero szEq : Bool) : Nat :=
  let m := if m &&& ATTR_MODE ≠ 0 ∧ em then m &&& cNot32 ATTR_MODE else m
  let m := if m &&& ATTR_UID ≠ 0 ∧ eu then m &&& cNot32 ATTR_UID else m
  let m := if m &&& ATTR_GID ≠ 0 ∧ eg then m &&& cNot32 ATTR_GID else m
  let m := if m &&& ATTR_SIZE ≠ 0 then
      if ¬ szZero then m &&& cNot32 ATTR_SIZE
      else if szEq then m &&& cNot32 ATTR_SIZE
      else m
    else m
  m

namespace Part000

/-- `dynsec_inode_setattr` (src/unnamed/part_000 lines 269-381).
`ptrsOk` models the `dentry && dentry->d_inode && attr` check.  Unlike
the other adapters this hook has no `if (!event)` null check after
`alloc_dynsec_event`; `fillOk` models `fill_in_inode_setattr`
succeeding (on a null event it fails and the event is freed). -/
def dynsec_inode_setattr (hookEnabled ptrsOk : Bool) (inode : InodeAttrs)
    (attr : Iattr) (tblEnabled conn fillOk ignoreMode : Bool)
    (ins : InsertResult) (env : Nat → StallRound) (defaultResponse : Int) :
    AdapterResult :=
  if ¬ hookEnabled then ⟨0, false, false, false, false⟩
  else if ¬ ptrsOk then ⟨0, false, false, false, false⟩
  else if attr.ia_valid &&& (ATTR_MODE ||| ATTR_UID ||| ATTR_GID ||| ATTR_SIZE)
      = 0 then ⟨0, false, false, false, false⟩
  else if setattr_reduced_mask inode attr = 0 then ⟨0, false, false, false, false⟩
  else if ¬ tblEnabled then ⟨0, false, false, false, false⟩
  else
    let rf : ReportFlags := ⟨true, false, false, false⟩
    let rf := if conn then { rf with self := true } else { rf with stall := true }
    if ¬ fillOk then ⟨0, true, true, false, false⟩
    else if rf.stall then
      let w := dynsec_wait_event_timeout true (some ⟨rf⟩) tblEnabled ignoreMode
        ins env 1000 defaultResponse
      ⟨if w.ret = 0 then w.responseOut else 0, true, false, false, true⟩
    else
      ⟨0, true, false, true, false⟩

/-- The report-flags computation of `dynsec_bprm_set_creds`
(src/unnamed/part_000 lines 30-45), up to the allocation of the event:
always AUDIT, then SELF when the originator is the connected agent,
else STALL.  Returns `none` when the hook bails out before building an
event. -/
def dynsec_bprm_set_creds_flags (hookEnabled bprmOk tblEnabled conn : Bool) :
    Option ReportFlags :=
  if ¬ hookEnabled then none
  else if ¬ bprmOk then none
  else if ¬ tblEnabled then none
  else
    let rf : ReportFlags := ⟨true, false, false, false⟩
    some (if conn then { rf with self := true } else { rf with stall := true })

/-- The report-flags computation of `dynsec_file_open`
(src/unnamed/part_000 lines 596-653), up to the allocation of the
event.  Returns `none` when the hook bails out before building an
event.  Note that the regular-file branch overwrites the flags with
exactly `DYNSEC_REPORT_STALL` (`report_flags = DYNSEC_REPORT_STALL;`
— an assignment, not `|=`). -/
def dynsec_file_open_flags (hookEnabled fmodeStream fmodeNonotify fmodeWrite
    isRegFile tblEnabled conn : Bool) : Option ReportFlags :=
  if ¬ hookEnabled then none
  else
    let rf : ReportFlags := ⟨true, false, false, false⟩
    let rf := if fmodeStream then { rf with stall := false } else rf
    let rf := if fmodeNonotify ∧ ¬ fmodeWrite then { rf with stall := false } else rf
    if isRegFile then
      let rf : ReportFlags := ⟨false, true, false, false⟩
      if ¬ tblEnabled then none
      else if conn then some { rf with self := true, stall := false }
      else some rf
    else none

/-- The report-flags computation of `dynsec_mmap_file`
(src/unnamed/part_000 lines 963-1024), up to the allocation of the
event.  `mapExecutable` models `flags & MAP_EXECUTABLE` (the
intermediate `exec_flags` also masks `MAP_DENYWRITE`, which the test
does not read); the four policy booleans model the module-global ints
`mmap_stall_on_exec`, `mmap_stall_on_ldso`, `mmap_stall_misc` and
`mmap_report_misc`.  Returns the flags and `is_low_priority`, or `none`
when the hook bails out before building an event. -/
def dynsec_mmap_file_flags (protExec tblEnabled inExecve fmodeExec
    mapExecutable mmapStallOnExec mmapStallOnLdso mmapStallMisc
    mmapReportMisc conn : Bool) : Option (ReportFlags × Bool) :=
  if ¬ protExec then none
  else if ¬ tblEnabled then none
  else
    let rf : ReportFlags := ⟨true, false, false, false⟩
    let branch : Option (ReportFlags × Bool) :=
      if inExecve ∨ fmodeExec then
        some (if mmapStallOnExec ∧ mapExecutable then { rf with stall := true }
          else if mmapStallOnLdso then { rf with stall := true }
          else rf, false)
      else
        if mmapStallMisc then some ({ rf with stall := true }, true)
        else if ¬ mmapReportMisc then none
        else some (rf, true)
    match branch with
    | none => none
    | some (rf, lowPri) =>
        -- "Don't stall on ourself"
        some (if conn then { rf with self := true, stall := false } else rf, lowPri)

end Part000

/-! ## Helper lemmas about the stall loop -/

/-- Behaviour of the retry loop when every round is an enabled
CONTINUE release: it retries until `remaining` falls to 1 (the
continuation cap), then exits with `-ECHILD`, with `remove` called and
without setting `*response` to `-EPERM`. -/
theorem stallLoopAux_allContinue (ct cts : Nat → Nat) (d : Int) :
    ∀ n, 1 ≤ n → ∀ idx timeout waited,
      (stallLoopAux (allContinueEnv ct cts) d n idx timeout waited).ret = -ECHILD ∧
      (stallLoopAux (allContinueEnv ct cts) d n idx timeout waited).setsEperm = false ∧
      (stallLoopAux (allContinueEnv ct cts) d n idx timeout waited).removed = true ∧
      (stallLoopAux (allContinueEnv ct cts) d n idx timeout waited).rounds = idx + n := by
  intro n
  induction n with
  | zero => intro h; exact absurd h (by omega)
  | succ k ih =>
    intro _ idx timeout waited
    rw [stallLoopAux]
    cases k with
    | zero =>
      simp [allContinueEnv, DYNSEC_RESPONSE_CONTINUE, DYNSEC_RESPONSE_EPERM]
    | succ kk =>
      have h2 : 2 ≤ kk + 1 + 1 := by omega
      simp only [allContinueEnv, Bool.not_true, not_false_eq_true, ite_true, ite_false,
        if_pos h2, Nat.add_sub_cancel, if_neg, decide_eq_true_eq]
      obtain ⟨e1, e2, e3, e4⟩ := ih (by omega) (idx + 1)
        (if ct idx = 0 then cts idx else ct idx) (waited + timeout)
      refine ⟨?_, ?_, ?_, ?_⟩ <;> simp [e1, e2, e3, e4] <;> omega

/-- Bounds on the retry loop: with every continuation timeout bounded
by `B`, at most `idx + n` waits happen and at most
`waited + timeout + (n-1)·B` total timeout is armed. -/
theorem stallLoopAux_bounds (env : Nat → StallRound) (d : Int) (B : Nat)
    (hB : ∀ i, effContTimeout env i ≤ B) :
    ∀ n, 1 ≤ n → ∀ idx timeout waited,
      (stallLoopAux env d n idx timeout waited).rounds ≤ idx + n ∧
      (stallLoopAux env d n idx timeout waited).totalWait
        ≤ waited + timeout + (n - 1) * B := by
  intro n
  induction n with
  | zero => intro h; exact absurd h (by omega)
  | succ k ih =>
    intro _ idx timeout waited
    rw [stallLoopAux]
    rcases hr : env idx with ⟨tbl, mode, byp, outc, ctsv⟩
    simp only [hr]
    cases tbl <;> cases mode <;> cases byp <;>
      try (refine ⟨?_, ?_⟩ <;> simp <;> omega)
    -- the enabled case
    simp only [not_true, Bool.not_true, not_false_eq_true, Bool.false_eq_true,
      if_true, if_false, ite_true, ite_false]
    cases outc with
    | interrupted => constructor <;> simp <;> omega
    | timedout => constructor <;> simp <;> omega
    | released resp c =>
      by_cases hresp : resp = DYNSEC_RESPONSE_CONTINUE
      · simp only [hresp, ite_true, if_pos rfl]
        by_cases hrem : 2 ≤ k + 1
        · simp only [if_pos hrem, Nat.add_sub_cancel]
          have htO : (if c ≠ 0 then c else ctsv) ≤ B := by
            have := hB idx
            rw [effContTimeout, hr] at this
            simpa using this
          obtain ⟨b1, b2⟩ := ih (by omega) (idx + 1)
            (if c ≠ 0 then c else ctsv) (waited + timeout)
          constructor
          · omega
          · have hmul : (k - 1) * B + B = k * B := by
              have hk : k - 1 + 1 = k := Nat.sub_add_cancel (by omega)
              calc (k - 1) * B + B = (k - 1 + 1) * B := (Nat.succ_mul _ _).symm
                _ = k * B := by rw [hk]
            omega
        · simp only [if_neg hrem]
          constructor <;> simp <;> omega
      · simp only [if_neg hresp]
        constructor <;> simp <;> omega

/-! ## Claims about the stall engine -/

/-- Claim C1, as stated, is false on the code: after the 256th
continuation the engine does terminate, but `local_response` is
CONTINUE, not EPERM, so `*response` is left at 0 and the verdict is
ALLOW, not DENY.  Concretely: userspace replies CONTINUE on every
round (no custom timeout, `get_continue_timeout() = 1000`); the loop
performs 256 waits and then exits, and the final `*response` is 0,
not `-EPERM`. -/
theorem C1_counterexample :
    (do_stall_interruptible (allContinueEnv (fun _ => 0) (fun _ => 1000)) 1000
      DYNSEC_RESPONSE_ALLOW).rounds = 256 ∧
    do_stall_response (do_stall_interruptible (allContinueEnv (fun _ => 0)
      (fun _ => 1000)) 1000 DYNSEC_RESPONSE_ALLOW) ≠ -EPERM := by
  obtain ⟨e1, e2, e3, e4⟩ := stallLoopAux_allContinue (fun _ => 0) (fun _ => 1000)
    DYNSEC_RESPONSE_ALLOW 256 (by omega) 0 1000 0
  rw [do_stall_interruptible, MAX_CONTINUE_RESPONSES]
  refine ⟨by rw [e4], ?_⟩
  rw [do_stall_response, e2]
  simp [EPERM]

/-- Claim C1 (amended): when user space responds CONTINUE on every
round of a stalled event, the engine loops up to the continuation cap
and stops after the 256th continuation (256 waits in total); it
returns the `-ECHILD` sentinel, leaves `*response` at 0, and the
verdict the hook returns to the OS is therefore ALLOW (0), not DENY. -/
theorem C1_theorem (ct cts : Nat → Nat) (t : Nat) (d : Int) :
    (do_stall_interruptible (allContinueEnv ct cts) t d).rounds = 256 ∧
    (do_stall_interruptible (allContinueEnv ct cts) t d).ret = -ECHILD ∧
    do_stall_response (do_stall_interruptible (allContinueEnv ct cts) t d) = 0 := by
  obtain ⟨e1, e2, e3, e4⟩ := stallLoopAux_allContinue ct cts d 256 (by omega) 0 t 0
  rw [do_stall_interruptible, MAX_CONTINUE_RESPONSES]
  exact ⟨by rw [e4], e1, by rw [do_stall_response, e2]; simp⟩

/-- Claim C2: the code violates it on the disabled paths.  A stall
entry is inserted, round 0 is an enabled CONTINUE release, and before
the next wait the admin turns global stall mode off (`handle_stall_ioc`
with `DYNSEC_STALL_MODE_SET`, which does not touch the stall table);
the waiter then returns `-ECHILD` from the `retry:` checks without
calling `stall_tbl_remove_entry`, although `dynsec_wait_event_timeout`
goes on to `kfree` the entry. -/
theorem C2_theorem :
    (do_stall_interruptible modeOffEnv 1000 DYNSEC_RESPONSE_ALLOW).ret = -ECHILD ∧
    (do_stall_interruptible modeOffEnv 1000 DYNSEC_RESPONSE_ALLOW).removed = false := by
  rw [do_stall_interruptible, MAX_CONTINUE_RESPONSES]
  rw [stallLoopAux]
  simp only [modeOffEnv, if_pos rfl, ite_true, ite_false, Bool.not_true,
    not_false_eq_true, not_true, if_false, Bool.false_eq_true]
  norm_num [DYNSEC_RESPONSE_CONTINUE]
  rw [stallLoopAux]
  norm_num [modeOffEnv]

/-- Claim C4: `do_stall_interruptible` always terminates (it is a total
function of its environment), the retry loop is re-entered only on a
CONTINUE response, at most `MAX_CONTINUE_RESPONSES` (256) waits occur,
and when every continuation timeout (custom or configured) is at most
`B`, the total armed timeout is bounded by the initial timeout plus
256·B. -/
theorem C4_theorem (env : Nat → StallRound) (t : Nat) (d : Int) (B : Nat)
    (hB : ∀ i, effContTimeout env i ≤ B) :
    (do_stall_interruptible env t d).rounds ≤ MAX_CONTINUE_RESPONSES ∧
    (do_stall_interruptible env t d).totalWait ≤ t + MAX_CONTINUE_RESPONSES * B := by
  obtain ⟨h1, h2⟩ := stallLoopAux_bounds env d B hB 256 (by omega) 0 t 0
  rw [do_stall_interruptible, MAX_CONTINUE_RESPONSES] at *
  have h3 : 255 * B ≤ 256 * B := Nat.mul_le_mul_right B (by omega)
  norm_num at h2
  exact ⟨by omega, by omega⟩

/-- Witness for C4 at a concrete input: all-CONTINUE environment with
continuation timeouts 500 and initial timeout 800. -/
theorem C4_witness :
    (do_stall_interruptible (allContinueEnv (fun _ => 0) (fun _ => 500)) 800
      DYNSEC_RESPONSE_ALLOW).rounds ≤ MAX_CONTINUE_RESPONSES ∧
    (do_stall_interruptible (allContinueEnv (fun _ => 0) (fun _ => 500)) 800
      DYNSEC_RESPONSE_ALLOW).totalWait ≤ 800 + MAX_CONTINUE_RESPONSES * 500 :=
  C4_theorem (allContinueEnv (fun _ => 0) (fun _ => 500)) 800
    DYNSEC_RESPONSE_ALLOW 500 (fun _ => Nat.le_refl 500)

/-- Claim C3: the verdict mapping of the stall.  On a release with a
non-CONTINUE response `r`, `*response` ends `-EPERM` exactly when
`r = DYNSEC_RESPONSE_EPERM` (so ALLOW maps to 0, DENY to `-EPERM`, and
any other response to 0 = ALLOW); on a timeout or an interrupt the
final response is the configured default, so `*response` is `-EPERM`
exactly when deny-on-timeout is enabled and 0 (ALLOW) otherwise. -/
theorem C3_theorem (dto : Bool) (r : Int) (c k t : Nat) :
    (r ≠ DYNSEC_RESPONSE_CONTINUE →
      do_stall_response (do_stall_interruptible (oneShotEnv (.released r c) k) t
        (defaultResponseOf dto))
        = (if r = DYNSEC_RESPONSE_EPERM then -EPERM else 0)) ∧
    (do_stall_response (do_stall_interruptible (oneShotEnv .timedout k) t
        (defaultResponseOf dto)) = (if dto then -EPERM else 0)) ∧
    (do_stall_response (do_stall_interruptible (oneShotEnv .interrupted k) t
        (defaultResponseOf dto)) = (if dto then -EPERM else 0)) := by
  refine ⟨fun hr => ?_, ?_, ?_⟩ <;>
      rw [do_stall_interruptible, stallLoopAux] <;>
      simp only [oneShotEnv, Bool.not_true, not_true, Bool.false_eq_true, if_false,
        ite_true, ite_false, not_false_eq_true, do_stall_response]
  · rw [if_neg hr]
    simp only [decide_eq_true_eq]
  · cases dto <;> simp [defaultResponseOf, DYNSEC_RESPONSE_EPERM, DYNSEC_RESPONSE_ALLOW]
  · cases dto <;> simp [defaultResponseOf, DYNSEC_RESPONSE_EPERM, DYNSEC_RESPONSE_ALLOW]

/-- Witness for C3 at concrete inputs: a DENY (EPERM) release yields
verdict `-EPERM`; with deny-on-timeout enabled, a timeout yields
`-EPERM`. -/
theorem C3_witness :
    do_stall_response (do_stall_interruptible
      (oneShotEnv (.released DYNSEC_RESPONSE_EPERM 0) 1000) 1000
      (defaultResponseOf true)) = -EPERM ∧
    do_stall_response (do_stall_interruptible (oneShotEnv .timedout 1000) 1000
      (defaultResponseOf true)) = -EPERM := by
  have h := C3_theorem true DYNSEC_RESPONSE_EPERM 0 1000 1000
  exact ⟨by simpa using h.1 (by decide), by simpa using h.2.1⟩

/-- Claim C10: the error contract of `dynsec_wait_event_timeout`.
With a NULL response pointer it returns `-EINVAL` without freeing; a
NULL event or a disabled stall table frees the event and returns
`-EINVAL`; an ignorable event (IGNORE flag and ignore mode) frees and
returns `-ECHILD`; a failed insert (`IS_ERR`, errno `e < 0`) frees and
returns the nonzero `e`; once an entry was inserted it returns 0, with
`*response` either 0 or `-EPERM`. -/
theorem C10_theorem (ev : DynsecEvent) (tbl ig : Bool) (e : Int)
    (ins : InsertResult) (env : Nat → StallRound) (t : Nat) (d : Int) :
    ((dynsec_wait_event_timeout false (some ev) tbl ig ins env t d).ret = -EINVAL ∧
      (dynsec_wait_event_timeout false (some ev) tbl ig ins env t d).freed = false) ∧
    ((dynsec_wait_event_timeout true none tbl ig ins env t d).ret = -EINVAL ∧
      (dynsec_wait_event_timeout true none tbl ig ins env t d).freed = true) ∧
    ((dynsec_wait_event_timeout true (some ev) false ig ins env t d).ret = -EINVAL ∧
      (dynsec_wait_event_timeout true (some ev) false ig ins env t d).freed = true) ∧
    (ev.report_flags.ignore = true → ig = true →
      (dynsec_wait_event_timeout true (some ev) true ig ins env t d).ret = -ECHILD ∧
      (dynsec_wait_event_timeout true (some ev) true ig ins env t d).freed = true) ∧
    (¬ (ev.report_flags.ignore = true ∧ ig = true) → e < 0 →
      (dynsec_wait_event_timeout true (some ev) true ig (.errp e) env t d).ret = e ∧
      (dynsec_wait_event_timeout true (some ev) true ig (.errp e) env t d).ret ≠ 0 ∧
      (dynsec_wait_event_timeout true (some ev) true ig (.errp e) env t d).freed = true) ∧
    (¬ (ev.report_flags.ignore = true ∧ ig = true) →
      (dynsec_wait_event_timeout true (some ev) true ig .entry env t d).ret = 0 ∧
      ((dynsec_wait_event_timeout true (some ev) true ig .entry env t d).responseOut = 0 ∨
        (dynsec_wait_event_timeout true (some ev) true ig .entry env t d).responseOut
          = -EPERM)) := by
  refine ⟨⟨rfl, rfl⟩, ⟨rfl, rfl⟩, ⟨rfl, rfl⟩, fun h1 h2 => ?_, fun h1 h2 => ?_,
    fun h1 => ?_⟩
  · simp [dynsec_wait_event_timeout, h1, h2]
  · rw [dynsec_wait_event_timeout]
    simp only [Bool.not_true, not_true, if_false, Bool.false_eq_true,
      not_false_eq_true, ite_true, ite_false, if_neg h1]
    exact ⟨trivial, by omega, trivial⟩
  · rw [dynsec_wait_event_timeout]
    simp only [Bool.not_true, not_true, if_false, Bool.false_eq_true,
      not_false_eq_true, ite_true, ite_false, if_neg h1]
    refine ⟨trivial, ?_⟩
    rw [do_stall_response]
    by_cases hs : (do_stall_interruptible env t d).setsEperm = true
    · right; rw [if_pos hs]
    · left; rw [if_neg hs]

/-- Witness for C10 at concrete inputs. -/
theorem C10_witness :
    ((dynsec_wait_event_timeout false (some ⟨⟨true, true, false, false⟩⟩) true false
      .entry (oneShotEnv .timedout 1000) 1000 0).ret = -EINVAL ∧
     (dynsec_wait_event_timeout false (some ⟨⟨true, true, false, false⟩⟩) true false
      .entry (oneShotEnv .timedout 1000) 1000 0).freed = false) ∧
    ((dynsec_wait_event_timeout true (some ⟨⟨true, false, false, true⟩⟩) true true
      .entry (oneShotEnv .timedout 1000) 1000 0).ret = -ECHILD ∧
     (dynsec_wait_event_timeout true (some ⟨⟨true, false, false, true⟩⟩) true true
      .entry (oneShotEnv .timedout 1000) 1000 0).freed = true) ∧
    ((dynsec_wait_event_timeout true (some ⟨⟨true, true, false, false⟩⟩) true false
      (.errp (-12)) (oneShotEnv .timedout 1000) 1000 0).ret = -12 ∧
     (dynsec_wait_event_timeout true (some ⟨⟨true, true, false, false⟩⟩) true false
      (.errp (-12)) (oneShotEnv .timedout 1000) 1000 0).freed = true) ∧
    ((dynsec_wait_event_timeout true (some ⟨⟨true, true, false, false⟩⟩) true false
      .entry (oneShotEnv .timedout 1000) 1000 0).ret = 0 ∧
     ((dynsec_wait_event_timeout true (some ⟨⟨true, true, false, false⟩⟩) true false
      .entry (oneShotEnv .timedout 1000) 1000 0).responseOut = 0 ∨
      (dynsec_wait_event_timeout true (some ⟨⟨true, true, false, false⟩⟩) true false
      .entry (oneShotEnv .timedout 1000) 1000 0).responseOut = -EPERM)) := by
  refine ⟨(C10_theorem ⟨⟨true, true, false, false⟩⟩ true false (-12) .entry
      (oneShotEnv .timedout 1000) 1000 0).1,
    (C10_theorem ⟨⟨true, false, false, true⟩⟩ true true (-12) .entry
      (oneShotEnv .timedout 1000) 1000 0).2.2.2.1 rfl rfl,
    ?_, ?_⟩
  · have h := (C10_theorem ⟨⟨true, true, false, false⟩⟩ true false (-12) .entry
      (oneShotEnv .timedout 1000) 1000 0).2.2.2.2.1 (by simp) (by omega)
    exact ⟨h.1, h.2.2⟩
  · exact (C10_theorem ⟨⟨true, true, false, false⟩⟩ true false (-12) .entry
      (oneShotEnv .timedout 1000) 1000 0).2.2.2.2.2 (by simp)

/-! ## Claims about the hook adapters' report flags -/

/-- Claim C5, as stated, is false on the code: `dynsec_file_open`
overwrites the flags with exactly `DYNSEC_REPORT_STALL` for a regular
file, so the built OPEN event does not carry AUDIT.  Concretely: hook
enabled, not a stream, no-notify clear, regular file, stall table
enabled, originator not the agent — the built event's flags are
`⟨audit := false, stall := true, self := false, ignore := false⟩`. -/
theorem C5_counterexample :
    Part000.dynsec_file_open_flags true false false false true true false
      = some ⟨false, true, false, false⟩ ∧
    ((⟨false, true, false, false⟩ : ReportFlags)).audit = false := ⟨rfl, rfl⟩

/-- Claim C5 (amended): the EXEC and MMAP adapters always set AUDIT and
never leave STALL on a SELF event; the OPEN adapter also clears STALL
and sets SELF for agent-origin events, but its regular-file branch
replaces the flags with exactly STALL, dropping AUDIT, for every built
OPEN event.  A SELF-origin EXEC event is never passed to the stall
engine (the adapter takes the enqueue branch). -/
theorem C5_theorem (he bok tbl conn fs fn fw reg : Bool)
    (pe iex fex me soe sol smi rmi aok fok ig : Bool) (ins : InsertResult)
    (env : Nat → StallRound) (d : Int) (q : Nat) :
    (∀ f, Part000.dynsec_bprm_set_creds_flags he bok tbl conn = some f →
      f.audit = true ∧ (f.self = true → f.stall = false)) ∧
    (∀ f lp, Part000.dynsec_mmap_file_flags pe tbl iex fex me soe sol smi rmi conn
      = some (f, lp) →
      f.audit = true ∧ (conn = true → f.self = true ∧ f.stall = false)) ∧
    (∀ f, Part000.dynsec_file_open_flags he fs fn fw reg tbl conn = some f →
      f.audit = false ∧ (conn = true → f.self = true ∧ f.stall = false) ∧
      (conn = false → f.stall = true)) ∧
    (Part000.dynsec_bprm_set_creds he bok tbl true aok fok ig ins env d q).stalled
      = false := by
  refine ⟨fun f hf => ?_, fun f lp hf => ?_, fun f hf => ?_, ?_⟩
  · unfold Part000.dynsec_bprm_set_creds_flags at hf
    cases he <;> cases bok <;> cases tbl <;> cases conn <;> simp_all <;>
      (subst hf; simp)
  · unfold Part000.dynsec_mmap_file_flags at hf
    split_ifs at hf <;> cases conn <;> aesop
  · unfold Part000.dynsec_file_open_flags at hf
    split_ifs at hf <;> cases conn <;> aesop
  · unfold Part000.dynsec_bprm_set_creds
    cases he <;> cases bok <;> cases tbl <;> cases aok <;> cases fok <;> simp_all

/-- Witness for C5 at concrete inputs: a non-SELF EXEC event carries
AUDIT; a SELF OPEN event has SELF set and STALL clear; a SELF-origin
EXEC adapter run does not stall. -/
theorem C5_witness :
    ((⟨true, true, false, false⟩ : ReportFlags)).audit = true ∧
    ((⟨false, false, true, false⟩ : ReportFlags)).self = true ∧
    ((⟨false, false, true, false⟩ : ReportFlags)).stall = false ∧
    (Part000.dynsec_bprm_set_creds true true true true true true false .entry
      (oneShotEnv .timedout 1000) 0 1).stalled = false := by
  have h0 := C5_theorem true true true false false false false true
    true false false false true true false true true true false .entry
    (oneShotEnv .timedout 1000) 0 1
  have h1 := C5_theorem true true true true false false false true
    true false false false true true false true true true false .entry
    (oneShotEnv .timedout 1000) 0 1
  refine ⟨(h0.1 ⟨true, true, false, false⟩ rfl).1, ?_, ?_, h1.2.2.2⟩
  · exact ((h1.2.2.1 ⟨false, false, true, false⟩ rfl).2.1 rfl).1
  · exact ((h1.2.2.1 ⟨false, false, true, false⟩ rfl).2.1 rfl).2

/-! ## Claims about `handle_stall_ioc` -/

/-- The mode block leaves both timeout fields unchanged. -/
theorem ioc_update_mode_timeouts (hdr : StallIocHdr) (cfg : GlobalConfig) :
    (ioc_update_mode hdr cfg).stall_timeout = cfg.stall_timeout ∧
    (ioc_update_mode hdr cfg).stall_timeout_continue = cfg.stall_timeout_continue := by
  unfold ioc_update_mode
  split_ifs <;> simp

/-- The default-deny block leaves both timeout fields unchanged. -/
theorem ioc_update_default_deny_timeouts (hdr : StallIocHdr) (cfg : GlobalConfig) :
    (ioc_update_default_deny hdr cfg).stall_timeout = cfg.stall_timeout ∧
    (ioc_update_default_deny hdr cfg).stall_timeout_continue
      = cfg.stall_timeout_continue := by
  unfold ioc_update_default_deny
  split_ifs <;> simp

/-- The default-timeout block clamps `stall_timeout` into `[MINW, MAXW]`
and leaves the continuation timeout unchanged. -/
theorem ioc_update_default_timeout_bounds (MINW MAXW : Nat) (hMM : MINW ≤ MAXW)
    (hdr : StallIocHdr) (cfg : GlobalConfig) :
    MINW ≤ (ioc_update_default_timeout MINW MAXW hdr cfg).stall_timeout ∧
    (ioc_update_default_timeout MINW MAXW hdr cfg).stall_timeout ≤ MAXW ∧
    (ioc_update_default_timeout MINW MAXW hdr cfg).stall_timeout_continue
      = cfg.stall_timeout_continue := by
  simp only [ioc_update_default_timeout]
  split_ifs <;> simp <;> omega

/-- The continuation-timeout block: when the current `stall_timeout` is
at most `MAXEXT`, the new continuation timeout lands in
`[stall_timeout, MAXEXT]`; `stall_timeout` itself is unchanged. -/
theorem ioc_update_continue_timeout_bounds (MAXEXT : Nat) (hdr : StallIocHdr)
    (cfg : GlobalConfig) (h : cfg.stall_timeout ≤ MAXEXT) :
    cfg.stall_timeout
      ≤ (ioc_update_continue_timeout MAXEXT hdr cfg).stall_timeout_continue ∧
    (ioc_update_continue_timeout MAXEXT hdr cfg).stall_timeout_continue ≤ MAXEXT ∧
    (ioc_update_continue_timeout MAXEXT hdr cfg).stall_timeout
      = cfg.stall_timeout := by
  simp only [ioc_update_continue_timeout]
  split_ifs <;> simp <;> omega

/-- Claim C6, as stated, is false on the code: a request that selects
only `DYNSEC_STALL_DEFAULT_TIMEOUT` and raises `stall_timeout` above
the current `stall_timeout_continue` is accepted, and afterwards
`stall_timeout ≤ stall_timeout_continue` no longer holds.  Concretely
(with modelled constants `MIN_WAIT = 50 ≤ MAX_WAIT = 10000 ≤
MAX_EXTENDED = 60000`): starting from the valid configuration
`{stall_timeout = 1000, stall_timeout_continue = 1000}`, the request
`{flags = DEFAULT_TIMEOUT, stall_timeout = 5000}` returns 0 and leaves
`stall_timeout = 5000 > stall_timeout_continue = 1000`. -/
theorem C6_counterexample :
    (handle_stall_ioc 50 10000 60000 true true ⟨DYNSEC_STALL_DEFAULT_TIMEOUT, 0, 5000, 0, 0⟩
      ⟨1, 1000, 1000, 0⟩).1 = 0 ∧
    (handle_stall_ioc 50 10000 60000 true true ⟨DYNSEC_STALL_DEFAULT_TIMEOUT, 0, 5000, 0, 0⟩
      ⟨1, 1000, 1000, 0⟩).2.stall_timeout = 5000 ∧
    (handle_stall_ioc 50 10000 60000 true true ⟨DYNSEC_STALL_DEFAULT_TIMEOUT, 0, 5000, 0, 0⟩
      ⟨1, 1000, 1000, 0⟩).2.stall_timeout_continue = 1000 ∧
    ¬ ((handle_stall_ioc 50 10000 60000 true true ⟨DYNSEC_STALL_DEFAULT_TIMEOUT, 0, 5000, 0, 0⟩
      ⟨1, 1000, 1000, 0⟩).2.stall_timeout
        ≤ (handle_stall_ioc 50 10000 60000 true true ⟨DYNSEC_STALL_DEFAULT_TIMEOUT, 0, 5000, 0, 0⟩
          ⟨1, 1000, 1000, 0⟩).2.stall_timeout_continue) := by decide

/-- Claim C6 (amended): with `MIN_WAIT ≤ MAX_WAIT ≤ MAX_EXTENDED`, every
privileged `handle_stall_ioc` request with at least one recognized flag
returns 0 (out-of-range values are clamped, not rejected); after a
request selecting `DYNSEC_STALL_DEFAULT_TIMEOUT` the new stall timeout
satisfies `MIN_WAIT ≤ stall_timeout ≤ MAX_WAIT`; after a request
selecting `DYNSEC_STALL_CONTINUE_TIMEOUT` (provided it also updated the
stall timeout, or the prior stall timeout was at most `MAX_EXTENDED`)
the continuation timeout satisfies `stall_timeout ≤
stall_timeout_continue ≤ MAX_EXTENDED`; but a request selecting only
`DYNSEC_STALL_DEFAULT_TIMEOUT` can leave `stall_timeout >
stall_timeout_continue` (see the counterexample). -/
theorem C6_theorem (MINW MAXW MAXEXT : Nat) (hMM : MINW ≤ MAXW)
    (hME : MAXW ≤ MAXEXT) (hdr : StallIocHdr) (cfg : GlobalConfig)
    (hflags : hdr.flags &&& (DYNSEC_STALL_MODE_SET ||| DYNSEC_STALL_DEFAULT_TIMEOUT
      ||| DYNSEC_STALL_CONTINUE_TIMEOUT ||| DYNSEC_STALL_DEFAULT_DENY) ≠ 0) :
    (handle_stall_ioc MINW MAXW MAXEXT true true hdr cfg).1 = 0 ∧
    (hdr.flags &&& DYNSEC_STALL_DEFAULT_TIMEOUT ≠ 0 →
      MINW ≤ (handle_stall_ioc MINW MAXW MAXEXT true true hdr cfg).2.stall_timeout ∧
      (handle_stall_ioc MINW MAXW MAXEXT true true hdr cfg).2.stall_timeout ≤ MAXW) ∧
    (hdr.flags &&& DYNSEC_STALL_CONTINUE_TIMEOUT ≠ 0 →
      (hdr.flags &&& DYNSEC_STALL_DEFAULT_TIMEOUT ≠ 0 ∨ cfg.stall_timeout ≤ MAXEXT) →
      (handle_stall_ioc MINW MAXW MAXEXT true true hdr cfg).2.stall_timeout
        ≤ (handle_stall_ioc MINW MAXW MAXEXT true true hdr cfg).2.stall_timeout_continue ∧
      (handle_stall_ioc MINW MAXW MAXEXT true true hdr cfg).2.stall_timeout_continue
        ≤ MAXEXT) := by
  have hb : ∀ b : Nat, 15 &&& b = b →
      (hdr.flags &&& (DYNSEC_STALL_MODE_SET ||| DYNSEC_STALL_DEFAULT_TIMEOUT
        ||| DYNSEC_STALL_CONTINUE_TIMEOUT ||| DYNSEC_STALL_DEFAULT_DENY)) &&& b
      = hdr.flags &&& b := by
    intro b hbb
    rw [show (DYNSEC_STALL_MODE_SET ||| DYNSEC_STALL_DEFAULT_TIMEOUT
      ||| DYNSEC_STALL_CONTINUE_TIMEOUT ||| DYNSEC_STALL_DEFAULT_DENY) = 15 from by decide]
    rw [Nat.and_assoc, hbb]
  rw [handle_stall_ioc]
  simp only [Bool.not_true, not_true, if_false, ite_true, ite_false,
    not_false_eq_true, if_neg hflags]
  simp only [hb DYNSEC_STALL_MODE_SET (by decide),
    hb DYNSEC_STALL_DEFAULT_TIMEOUT (by decide),
    hb DYNSEC_STALL_CONTINUE_TIMEOUT (by decide),
    hb DYNSEC_STALL_DEFAULT_DENY (by decide)]
  set cfg1 := if hdr.flags &&& DYNSEC_STALL_MODE_SET ≠ 0 then ioc_update_mode hdr cfg
    else cfg with hcfg1
  set cfg2 := if hdr.flags &&& DYNSEC_STALL_DEFAULT_TIMEOUT ≠ 0 then
    ioc_update_default_timeout MINW MAXW hdr cfg1 else cfg1 with hcfg2
  set cfg3 := if hdr.flags &&& DYNSEC_STALL_CONTINUE_TIMEOUT ≠ 0 then
    ioc_update_continue_timeout MAXEXT hdr cfg2 else cfg2 with hcfg3
  set cfg4 := if hdr.flags &&& DYNSEC_STALL_DEFAULT_DENY ≠ 0 then
    ioc_update_default_deny hdr cfg3 else cfg3 with hcfg4
  have hc1t : cfg1.stall_timeout = cfg.stall_timeout ∧
      cfg1.stall_timeout_continue = cfg.stall_timeout_continue := by
    rw [hcfg1]; split_ifs
    · exact ioc_update_mode_timeouts hdr cfg
    · exact ⟨rfl, rfl⟩
  have hc4t : cfg4.stall_timeout = cfg3.stall_timeout ∧
      cfg4.stall_timeout_continue = cfg3.stall_timeout_continue := by
    rw [hcfg4]; split_ifs
    · exact ioc_update_default_deny_timeouts hdr cfg3
    · exact ⟨rfl, rfl⟩
  refine ⟨trivial, fun hdt => ?_, fun hct hpre => ?_⟩
  · have h2 := ioc_update_default_timeout_bounds MINW MAXW hMM hdr cfg1
    have hc2 : cfg2 = ioc_update_default_timeout MINW MAXW hdr cfg1 := by
      rw [hcfg2, if_pos hdt]
    have hc3t : cfg3.stall_timeout = cfg2.stall_timeout := by
      rw [hcfg3]; split_ifs with h
      · exact (ioc_update_continue_timeout_bounds MAXEXT hdr cfg2 (by
          rw [hc2]; omega)).2.2
      · rfl
    rw [hc4t.1, hc3t, hc2]
    omega
  · have hc3 : cfg3 = ioc_update_continue_timeout MAXEXT hdr cfg2 := by
      rw [hcfg3, if_pos hct]
    have hstall2 : cfg2.stall_timeout ≤ MAXEXT := by
      rcases hpre with hdt | hold
      · have h2 := ioc_update_default_timeout_bounds MINW MAXW hMM hdr cfg1
        have hc2 : cfg2 = ioc_update_default_timeout MINW MAXW hdr cfg1 := by
          rw [hcfg2, if_pos hdt]
        rw [hc2]; omega
      · rw [hcfg2]; split_ifs with h
        · have h2 := ioc_update_default_timeout_bounds MINW MAXW hMM hdr cfg1
          omega
        · rw [hc1t.1]; omega
    have h3 := ioc_update_continue_timeout_bounds MAXEXT hdr cfg2 hstall2
    rw [hc4t.1, hc4t.2, hc3]
    exact ⟨by omega, by omega⟩

/-- Witness for C6 at concrete inputs: both timeout flags selected,
requested stall timeout 20000 (clamped to `MAX_WAIT = 10000`),
requested continuation timeout 5 (raised to the new stall timeout). -/
theorem C6_witness :
    (handle_stall_ioc 50 10000 60000 true true ⟨6, 0, 20000, 5, 0⟩
      ⟨1, 1000, 1000, 0⟩).1 = 0 ∧
    (50 ≤ (handle_stall_ioc 50 10000 60000 true true ⟨6, 0, 20000, 5, 0⟩
      ⟨1, 1000, 1000, 0⟩).2.stall_timeout ∧
     (handle_stall_ioc 50 10000 60000 true true ⟨6, 0, 20000, 5, 0⟩
      ⟨1, 1000, 1000, 0⟩).2.stall_timeout ≤ 10000) ∧
    ((handle_stall_ioc 50 10000 60000 true true ⟨6, 0, 20000, 5, 0⟩
      ⟨1, 1000, 1000, 0⟩).2.stall_timeout
        ≤ (handle_stall_ioc 50 10000 60000 true true ⟨6, 0, 20000, 5, 0⟩
          ⟨1, 1000, 1000, 0⟩).2.stall_timeout_continue ∧
     (handle_stall_ioc 50 10000 60000 true true ⟨6, 0, 20000, 5, 0⟩
      ⟨1, 1000, 1000, 0⟩).2.stall_timeout_continue ≤ 60000) := by
  have h := C6_theorem 50 10000 60000 (by omega) (by omega) ⟨6, 0, 20000, 5, 0⟩
    ⟨1, 1000, 1000, 0⟩ (by decide)
  exact ⟨h.1, h.2.1 (by decide), h.2.2 (by decide) (Or.inl (by decide))⟩

/-- Claim C9: a request selecting at least one recognized setting from a
caller without CAP_SYS_ADMIN returns `-EPERM` and leaves the
configuration unchanged. -/
theorem C9_theorem (MINW MAXW MAXEXT : Nat) (hdr : StallIocHdr)
    (cfg : GlobalConfig)
    (hflags : hdr.flags &&& (DYNSEC_STALL_MODE_SET ||| DYNSEC_STALL_DEFAULT_TIMEOUT
      ||| DYNSEC_STALL_CONTINUE_TIMEOUT ||| DYNSEC_STALL_DEFAULT_DENY) ≠ 0) :
    handle_stall_ioc MINW MAXW MAXEXT false true hdr cfg = (-EPERM, cfg) := by
  rw [handle_stall_ioc]
  simp [hflags]

/-- Witness for C9 at a concrete input: all four flags selected, caller
not capable; the call returns `-EPERM` and the configuration is intact. -/
theorem C9_witness :
    handle_stall_ioc 50 10000 60000 false true ⟨15, 1, 7, 9, 1⟩ ⟨1, 1000, 1000, 0⟩
      = (-EPERM, ⟨1, 1000, 1000, 0⟩) :=
  C9_theorem 50 10000 60000 ⟨15, 1, 7, 9, 1⟩ ⟨1, 1000, 1000, 0⟩ (by decide)

/-! ## Claims about the setattr adapter -/

/-- `setattr_reduced_mask` agrees with its boolean-abstracted form
`reduceMaskB`. -/
theorem setattr_reduced_mask_eq (inode : InodeAttrs) (attr : Iattr) :
    setattr_reduced_mask inode attr
      = reduceMaskB (attr.ia_valid &&& (ATTR_MODE ||| ATTR_UID ||| ATTR_GID ||| ATTR_SIZE))
          (decide (attr.ia_mode = inode.i_mode)) (decide (attr.ia_uid = inode.i_uid))
          (decide (attr.ia_gid = inode.i_gid)) (decide (attr.ia_size = 0))
          (decide (attr.ia_size = inode.i_size)) := by
  by_cases h1 : attr.ia_mode = inode.i_mode <;>
  by_cases h2 : attr.ia_uid = inode.i_uid <;>
  by_cases h3 : attr.ia_gid = inode.i_gid <;>
  by_cases h4 : attr.ia_size = 0 <;>
  by_cases h5 : attr.ia_size = inode.i_size <;>
    simp [setattr_reduced_mask, reduceMaskB, h1, h2, h3, h4, h5]

/-- When the masked `ia_valid` is below 16 and each selected field is
redundant, the reduced mask is 0 (exhaustive check). -/
theorem reduceMaskB_zero : ∀ m : Fin 16, ∀ em eu eg szZero szEq : Bool,
    (m.val &&& ATTR_MODE ≠ 0 → em = true) →
    (m.val &&& ATTR_UID ≠ 0 → eu = true) →
    (m.val &&& ATTR_GID ≠ 0 → eg = true) →
    (m.val &&& ATTR_SIZE ≠ 0 → szZero = false ∨ szEq = true) →
    reduceMaskB m.val em eu eg szZero szEq = 0 := by decide

/-- The SIZE bit survives the reduction exactly when it was selected,
the requested size is 0 and the sizes differ (exhaustive check). -/
theorem reduceMaskB_size : ∀ m : Fin 16, ∀ em eu eg szZero szEq : Bool,
    (reduceMaskB m.val em eu eg szZero szEq &&& ATTR_SIZE ≠ 0 ↔
      (m.val &&& ATTR_SIZE ≠ 0 ∧ szZero = true ∧ szEq = false)) := by decide

/-- Bits of the masked `ia_valid` agree with bits of `ia_valid`. -/
theorem ia_valid_masked_bit (v b : Nat) (hb : 15 &&& b = b) :
    (v &&& (ATTR_MODE ||| ATTR_UID ||| ATTR_GID ||| ATTR_SIZE)) &&& b = v &&& b := by
  rw [show (ATTR_MODE ||| ATTR_UID ||| ATTR_GID ||| ATTR_SIZE) = 15 from by decide,
    Nat.and_assoc, hb]

/-- The masked `ia_valid` is below 16. -/
theorem ia_valid_masked_lt (v : Nat) :
    v &&& (ATTR_MODE ||| ATTR_UID ||| ATTR_GID ||| ATTR_SIZE) < 16 := by
  rw [show (ATTR_MODE ||| ATTR_UID ||| ATTR_GID ||| ATTR_SIZE) = 15 from by decide]
  have h := @Nat.and_le_right v 15
  omega

/-- Claim C7: `dynsec_inode_setattr` produces no event and returns
ALLOW (0) when, after masking to mode/uid/gid/size, every selected
field is unchanged (each requested value equals the inode's current
value); and the SIZE field survives the mask reduction exactly when the
requested size is 0 and the inode's current size is nonzero. -/
theorem C7_theorem (he po tbl conn fok ig : Bool) (inode : InodeAttrs)
    (attr : Iattr) (ins : InsertResult) (env : Nat → StallRound) (d : Int) :
    ((attr.ia_valid &&& ATTR_MODE ≠ 0 → attr.ia_mode = inode.i_mode) →
     (attr.ia_valid &&& ATTR_UID ≠ 0 → attr.ia_uid = inode.i_uid) →
     (attr.ia_valid &&& ATTR_GID ≠ 0 → attr.ia_gid = inode.i_gid) →
     (attr.ia_valid &&& ATTR_SIZE ≠ 0 → attr.ia_size = inode.i_size) →
      Part000.dynsec_inode_setattr he po inode attr tbl conn fok ig ins env d
        = ⟨0, false, false, false, false⟩) ∧
    (setattr_reduced_mask inode attr &&& ATTR_SIZE ≠ 0 ↔
      (attr.ia_valid &&& ATTR_SIZE ≠ 0 ∧ attr.ia_size = 0 ∧ inode.i_size ≠ 0)) := by
  constructor
  · intro hMode hUid hGid hSize
    have hzero : setattr_reduced_mask inode attr = 0 := by
      rw [setattr_reduced_mask_eq]
      refine reduceMaskB_zero
        ⟨attr.ia_valid &&& (ATTR_MODE ||| ATTR_UID ||| ATTR_GID ||| ATTR_SIZE),
          ia_valid_masked_lt attr.ia_valid⟩ _ _ _ _ _ ?_ ?_ ?_ ?_
      · intro hm
        rw [ia_valid_masked_bit _ _ (by decide)] at hm
        exact decide_eq_true (hMode hm)
      · intro hm
        rw [ia_valid_masked_bit _ _ (by decide)] at hm
        exact decide_eq_true (hUid hm)
      · intro hm
        rw [ia_valid_masked_bit _ _ (by decide)] at hm
        exact decide_eq_true (hGid hm)
      · intro hm
        rw [ia_valid_masked_bit _ _ (by decide)] at hm
        by_cases hz : attr.ia_size = 0
        · exact Or.inr (decide_eq_true (hSize hm))
        · exact Or.inl (decide_eq_false hz)
    rw [Part000.dynsec_inode_setattr]
    split_ifs <;> first | rfl | (exact absurd hzero (by assumption))
  · rw [setattr_reduced_mask_eq]
    rw [reduceMaskB_size
      ⟨attr.ia_valid &&& (ATTR_MODE ||| ATTR_UID ||| ATTR_GID ||| ATTR_SIZE),
        ia_valid_masked_lt attr.ia_valid⟩]
    rw [ia_valid_masked_bit _ _ (by decide)]
    constructor
    · rintro ⟨hm, hz, hne⟩
      have hz' : attr.ia_size = 0 := of_decide_eq_true hz
      have hne' : ¬ (attr.ia_size = inode.i_size) := of_decide_eq_false hne
      exact ⟨hm, hz', fun h0 => hne' (by rw [hz', h0])⟩
    · rintro ⟨hm, hz, hne⟩
      refine ⟨hm, decide_eq_true hz, decide_eq_false fun h => hne ?_⟩
      rw [← h, hz]

/-- Witness for C7 at a concrete input: a SETATTR request selecting all
four fields with values equal to the inode's current ones produces no
event and returns 0; and for that input the SIZE bit is (as the iff
states) not kept, since the current size is 0 too. -/
theorem C7_witness :
    Part000.dynsec_inode_setattr true true ⟨420, 1000, 1000, 0⟩ ⟨15, 420, 1000, 1000, 0⟩
      true false true false .entry (oneShotEnv .timedout 1000) 0
      = ⟨0, false, false, false, false⟩ ∧
    ¬ (setattr_reduced_mask ⟨420, 1000, 1000, 0⟩ ⟨15, 420, 1000, 1000, 0⟩
        &&& ATTR_SIZE ≠ 0) := by
  have h := C7_theorem true true true false true false ⟨420, 1000, 1000, 0⟩
    ⟨15, 420, 1000, 1000, 0⟩ .entry (oneShotEnv .timedout 1000) 0
  refine ⟨h.1 (fun _ => rfl) (fun _ => rfl) (fun _ => rfl) (fun _ => rfl), ?_⟩
  rw [h.2]
  decide

/-! ## Claim C8: freeing on a full non-stall queue -/

/-- Claim C8, as stated, is false on the part_000 adapters: when
`enqueue_nonstall_event` returns 0 (queue full) the part_000
`dynsec_bprm_set_creds` has already discarded the return value with a
`(void)` cast and does not free the event.  Concretely: hook enabled,
valid bprm, table enabled, agent-origin (non-stall), allocation and
fill succeed, enqueue returns 0 — the adapter frees nothing. -/
theorem C8_counterexample :
    (Part000.dynsec_bprm_set_creds true true true true true true false .entry
      (oneShotEnv .timedout 1000) 0 0).freedByAdapter = false ∧
    (Part000.dynsec_bprm_set_creds true true true true true true false .entry
      (oneShotEnv .timedout 1000) 0 0).enqueued = true := ⟨rfl, rfl⟩

/-- Claim C8 (amended): in the hooks.c variant of `dynsec_bprm_set_creds`
the adapter frees the event whenever `enqueue_nonstall_event` returns 0
on the non-stall path, while the part_000 variant ignores the return
value and never frees the event there, whatever the returned size. -/
theorem C8_theorem (ig : Bool) (ins : InsertResult) (env : Nat → StallRound)
    (d : Int) (q : Nat) :
    (HooksC.dynsec_bprm_set_creds true true true true true ig ins env d 0).freedByAdapter
      = true ∧
    (Part000.dynsec_bprm_set_creds true true true true true true ig ins env d q).freedByAdapter
      = false := ⟨rfl, rfl⟩
